import Mathlib

/-!
Shallow embedding of the database-layer business logic of the Eduvance
school-administration application: the invoice and credit-note total
recalculation triggers, the client statement ledger, sequence-number
generation, recurring-invoice generation, and weighted assessment
averages, as defined in the SQL migrations of the repository.

Modelling conventions:
* SQL `numeric` values are exact rationals (`ℚ`);
* SQL `date` values are year/month/day triples with PostgreSQL's
  calendar-aware `interval` arithmetic (month addition clamps the day
  to the end of the target month);
* SQL rows are structures and tables are lists of rows; every table in
  this application is filtered to a single authenticated owner
  (`user_id = auth.uid()`), so the owner column is left implicit and a
  modelled table holds one owner's rows;
* statements that can raise a runtime error return `Except String`.
-/

/-- Exact decimal arithmetic of the SQL `numeric` type, modelled as `ℚ`. -/
abbrev Money : Type := ℚ

/-- Rounding half away from zero to 2 decimal places (used only to state
the specification's `round(_, 2)`; the SQL code never rounds). -/
def round2 (q : ℚ) : ℚ := (round (q * 100) : ℤ) / 100

/-! ### Calendar dates -/

/-- A calendar date (SQL `date`). -/
structure Date where
  year : Nat
  month : Nat
  day : Nat
deriving DecidableEq

/-- Gregorian leap-year rule. -/
def isLeapYear (y : Nat) : Bool :=
  (y % 4 == 0 && y % 100 != 0) || (y % 400 == 0)

/-- Number of days in month `m` of year `y`. -/
def daysInMonth (y m : Nat) : Nat :=
  if m = 2 then (if isLeapYear y then 29 else 28)
  else if m = 4 ∨ m = 6 ∨ m = 9 ∨ m = 11 then 30
  else 31

/-- Numeric key realising the chronological order of valid dates. -/
def Date.key (d : Date) : Nat := d.year * 10000 + d.month * 100 + d.day

/-- Date comparison `a <= b`. -/
def Date.le (a b : Date) : Prop := a.key ≤ b.key

instance (a b : Date) : Decidable (a.le b) := Nat.decLe a.key b.key

/-- The day after `d`. -/
def Date.nextDay (d : Date) : Date :=
  if d.day < daysInMonth d.year d.month then ⟨d.year, d.month, d.day + 1⟩
  else if d.month < 12 then ⟨d.year, d.month + 1, 1⟩
  else ⟨d.year + 1, 1, 1⟩

/-- `d + interval 'n days'`. -/
def Date.addDays : Date → Nat → Date
  | d, 0 => d
  | d, n + 1 => Date.addDays d.nextDay n

/-- `d + interval 'n months'` with PostgreSQL's clamping of the day to
the length of the target month (e.g. Jan 31 + 1 month = Feb 28). -/
def Date.addMonths (d : Date) (n : Nat) : Date :=
  let t := d.month - 1 + n
  let y := d.year + t / 12
  let m := t % 12 + 1
  ⟨y, m, min d.day (daysInMonth y m)⟩

/-! ### Invoices, invoice items and the totals trigger
(`supabase/migrations/20250212082105_bold_lab.sql`) -/

/-- `invoices.status` check constraint. -/
inductive InvoiceStatus
  | draft
  | sent
  | paid
  | overdue
deriving DecidableEq

/-- A row of the `invoices` table. -/
structure Invoice where
  id : Nat
  number : String
  clientId : Nat
  date : Date
  dueDate : Date
  subtotal : Money
  taxRate : Money
  taxAmount : Money
  total : Money
  status : InvoiceStatus
deriving DecidableEq

/-- A row of the `invoice_items` table. -/
structure InvoiceItem where
  id : Nat
  invoiceId : Nat
  description : String
  quantity : Money
  rate : Money
  amount : Money
deriving DecidableEq

/-- The invoice tables. -/
structure InvoiceDB where
  invoices : List Invoice
  invoiceItems : List InvoiceItem
deriving DecidableEq

/-- `SELECT COALESCE(SUM(amount), 0) FROM invoice_items WHERE invoice_id = invId`. -/
def sumItemAmounts (items : List InvoiceItem) (invId : Nat) : Money :=
  ((items.filter fun it => it.invoiceId = invId).map fun it => it.amount).sum

/-- The two sequential `UPDATE invoices` statements of the trigger
function `update_invoice_totals`, for the invoice with id `invId`:
first `subtotal` is set to the item sum, then `tax_amount` and `total`
are recomputed from the (new) `subtotal` and `tax_rate`. -/
def applyInvoiceTotals (invoices : List Invoice) (items : List InvoiceItem)
    (invId : Nat) : List Invoice :=
  let step1 := invoices.map fun inv =>
    if inv.id = invId then {inv with subtotal := sumItemAmounts items invId} else inv
  step1.map fun inv =>
    if inv.id = invId then
      {inv with
        taxAmount := inv.subtotal * (inv.taxRate / 100),
        total := inv.subtotal + inv.subtotal * (inv.taxRate / 100)}
    else inv

/-- Trigger function `update_invoice_totals`, fired `FOR EACH ROW` after
`INSERT OR UPDATE OR DELETE` on `invoice_items`.  The function body
reads `NEW.invoice_id`; in a row-level DELETE trigger PostgreSQL leaves
the record `NEW` unassigned, so that reference raises the runtime error
`record new is not assigned yet`, aborting the statement. -/
def update_invoice_totals (db : InvoiceDB) (newRow : Option InvoiceItem) :
    Except String InvoiceDB :=
  match newRow with
  | none => .error "record new is not assigned yet"
  | some r =>
      .ok {db with invoices := applyInvoiceTotals db.invoices db.invoiceItems r.invoiceId}

/-- `INSERT INTO invoice_items` followed by the AFTER INSERT firing of
`update_invoice_totals` (with `NEW` set to the inserted row). -/
def insertInvoiceItem (db : InvoiceDB) (r : InvoiceItem) : Except String InvoiceDB :=
  update_invoice_totals {db with invoiceItems := db.invoiceItems ++ [r]} (some r)

/-- `UPDATE invoice_items` of the row with `r.id` followed by the AFTER
UPDATE firing of `update_invoice_totals` (with `NEW` set to the updated
row). -/
def updateInvoiceItem (db : InvoiceDB) (r : InvoiceItem) : Except String InvoiceDB :=
  update_invoice_totals
    {db with invoiceItems := db.invoiceItems.map fun it => if it.id = r.id then r else it}
    (some r)

/-- `DELETE FROM invoice_items WHERE id = itemId` followed by the AFTER
DELETE firing of `update_invoice_totals`, which fires with `NEW`
unassigned; the resulting error aborts (rolls back) the deletion. -/
def deleteInvoiceItem (db : InvoiceDB) (itemId : Nat) : Except String InvoiceDB :=
  update_invoice_totals
    {db with invoiceItems := db.invoiceItems.filter fun it => ¬ it.id = itemId} none

/-! ### Credit notes and their totals trigger (`src/unnamed/part_013`) -/

/-- `credit_notes.status` check constraint. -/
inductive CreditNoteStatus
  | draft
  | issued
deriving DecidableEq

/-- A row of the `credit_notes` table. -/
structure CreditNote where
  id : Nat
  number : String
  invoiceId : Option Nat
  clientId : Nat
  date : Date
  reason : String
  subtotal : Money
  taxRate : Money
  taxAmount : Money
  total : Money
  status : CreditNoteStatus
deriving DecidableEq

/-- A row of the `credit_note_items` table. -/
structure CreditNoteItem where
  id : Nat
  creditNoteId : Nat
  description : String
  quantity : Money
  rate : Money
  amount : Money
deriving DecidableEq

/-- The credit-note tables. -/
structure CreditNoteDB where
  creditNotes : List CreditNote
  creditNoteItems : List CreditNoteItem
deriving DecidableEq

/-- `SELECT COALESCE(SUM(amount), 0) FROM credit_note_items WHERE credit_note_id = cnId`. -/
def sumCreditNoteItemAmounts (items : List CreditNoteItem) (cnId : Nat) : Money :=
  ((items.filter fun it => it.creditNoteId = cnId).map fun it => it.amount).sum

/-- The two sequential `UPDATE credit_notes` statements of the trigger
function `update_credit_note_totals`. -/
def applyCreditNoteTotals (notes : List CreditNote) (items : List CreditNoteItem)
    (cnId : Nat) : List CreditNote :=
  let step1 := notes.map fun cn =>
    if cn.id = cnId then {cn with subtotal := sumCreditNoteItemAmounts items cnId} else cn
  step1.map fun cn =>
    if cn.id = cnId then
      {cn with
        taxAmount := cn.subtotal * (cn.taxRate / 100),
        total := cn.subtotal + cn.subtotal * (cn.taxRate / 100)}
    else cn

/-- Trigger function `update_credit_note_totals`, fired `FOR EACH ROW`
after `INSERT OR UPDATE OR DELETE` on `credit_note_items`; like
`update_invoice_totals` it reads `NEW.credit_note_id`, which is
unassigned in the DELETE case. -/
def update_credit_note_totals (db : CreditNoteDB) (newRow : Option CreditNoteItem) :
    Except String CreditNoteDB :=
  match newRow with
  | none => .error "record new is not assigned yet"
  | some r =>
      .ok {db with
            creditNotes := applyCreditNoteTotals db.creditNotes db.creditNoteItems r.creditNoteId}

/-- `INSERT INTO credit_note_items` followed by the AFTER INSERT trigger. -/
def insertCreditNoteItem (db : CreditNoteDB) (r : CreditNoteItem) :
    Except String CreditNoteDB :=
  update_credit_note_totals {db with creditNoteItems := db.creditNoteItems ++ [r]} (some r)

/-- `UPDATE credit_note_items` of the row with `r.id` followed by the
AFTER UPDATE firing of `update_credit_note_totals` (with `NEW` set to
the updated row). -/
def updateCreditNoteItem (db : CreditNoteDB) (r : CreditNoteItem) :
    Except String CreditNoteDB :=
  update_credit_note_totals
    {db with creditNoteItems := db.creditNoteItems.map fun it => if it.id = r.id then r else it}
    (some r)

/-- `DELETE FROM credit_note_items WHERE id = itemId` followed by the
AFTER DELETE trigger, which fires with `NEW` unassigned. -/
def deleteCreditNoteItem (db : CreditNoteDB) (itemId : Nat) : Except String CreditNoteDB :=
  update_credit_note_totals
    {db with creditNoteItems := db.creditNoteItems.filter fun it => ¬ it.id = itemId} none

/-! ### Client statement ledger
(`supabase/migrations/20250212082105_bold_lab.sql`, `get_client_statement`
and the `client_statement_summary` view) -/

/-- One row of the result set of `get_client_statement` (the source's
`type` column is named `txType` here since `type` is reserved in Lean).
`runningBalance` is filled in by the window computation. -/
structure StatementEntry where
  date : Date
  description : String
  reference : String
  txType : String
  debit : Money
  credit : Money
  runningBalance : Money
deriving DecidableEq

/-- The `transactions` CTE, invoice branch: every invoice of the client
in the date range contributes a debit entry (no status filter). -/
def invoiceTransactions (invs : List Invoice) (c : Nat) (s e : Date) :
    List StatementEntry :=
  (invs.filter fun i => i.clientId = c ∧ s.le i.date ∧ i.date.le e).map fun i =>
    { date := i.date, description := "Invoice #" ++ i.number, reference := i.number,
      txType := "invoice", debit := i.total, credit := 0, runningBalance := 0 }

/-- The `transactions` CTE, payment branch: every `paid` invoice of the
client in the range contributes a credit entry dated on the invoice date. -/
def paymentTransactions (invs : List Invoice) (c : Nat) (s e : Date) :
    List StatementEntry :=
  (invs.filter fun i =>
      i.clientId = c ∧ s.le i.date ∧ i.date.le e ∧ i.status = .paid).map fun i =>
    { date := i.date, description := "Payment for Invoice #" ++ i.number,
      reference := i.number, txType := "payment", debit := 0, credit := i.total,
      runningBalance := 0 }

/-- The full `transactions` CTE (`UNION ALL` of both branches). -/
def statementTransactions (invs : List Invoice) (c : Nat) (s e : Date) :
    List StatementEntry :=
  invoiceTransactions invs c s e ++ paymentTransactions invs c s e

/-- The `ORDER BY t.date, CASE WHEN t.type = 'invoice' THEN 0 ELSE 1 END`
sort key, encoded so that `entryKey a ≤ entryKey b` is exactly the
lexicographic comparison. -/
def entryKey (t : StatementEntry) : Nat :=
  t.date.key * 2 + (if t.txType = "invoice" then 0 else 1)

/-- The sort relation of the statement query. -/
def entryLE (a b : StatementEntry) : Prop := entryKey a ≤ entryKey b

instance : DecidableRel entryLE := fun a b => Nat.decLe (entryKey a) (entryKey b)

instance : IsTotal StatementEntry entryLE := ⟨fun a b => Nat.le_total (entryKey a) (entryKey b)⟩

instance : IsTrans StatementEntry entryLE := ⟨fun _ _ _ => Nat.le_trans⟩

/-- `debit - credit` of an entry. -/
def entryNet (t : StatementEntry) : Money := t.debit - t.credit

/-- `SUM(debit - credit) OVER (ORDER BY date, CASE ...)` for the row `t`
of the result set `l`: the window's default frame is
`RANGE UNBOUNDED PRECEDING`, which sums every row whose sort key is less
than or equal to the current row's key — rows tied on the key (peers)
are all included. -/
def windowBalance (l : List StatementEntry) (t : StatementEntry) : Money :=
  ((l.filter fun u => entryKey u ≤ entryKey t).map entryNet).sum

/-- Function `get_client_statement`: sorts the transactions by
`(date, invoice-before-payment)` and attaches the window sum as the
running balance. -/
def get_client_statement (invs : List Invoice) (c : Nat) (s e : Date) :
    List StatementEntry :=
  let txs := List.insertionSort entryLE (statementTransactions invs c s e)
  txs.map fun t => {t with runningBalance := windowBalance txs t}

/-- One row of the `client_statement_summary` view (the first/last
invoice date columns are omitted: no claim concerns them; the SQL `SUM`
over a client with no invoices is NULL, modelled as 0). -/
structure SummaryRow where
  clientId : Nat
  totalInvoices : Nat
  totalPaid : Money
  totalOutstanding : Money
deriving DecidableEq

/-- The `client_statement_summary` view, for one client. -/
def client_statement_summary (invs : List Invoice) (c : Nat) : SummaryRow :=
  let mine := invs.filter fun i => i.clientId = c
  { clientId := c
    totalInvoices := mine.length
    totalPaid := ((mine.filter fun i => i.status = .paid).map fun i => i.total).sum
    totalOutstanding :=
      ((mine.filter fun i => i.status = .sent ∨ i.status = .overdue).map fun i => i.total).sum }

/-- The running balance of the last statement entry (0 when the
statement is empty). -/
def finalBalance (invs : List Invoice) (c : Nat) (s e : Date) : Money :=
  match (get_client_statement invs c s e).getLast? with
  | some t => t.runningBalance
  | none => 0

/-! ### Assessments and weighted averages
(`supabase/migrations/20250212145640_little_poetry.sql`) -/

/-- A row of the `assessments` table (the check constraints demand
`0 ≤ weight ≤ 100` and `0 ≤ score ≤ 100`). -/
structure Assessment where
  id : Nat
  studentId : Nat
  subjectId : Nat
  term : Nat
  year : Nat
  weight : Money
  score : Money
deriving DecidableEq

/-- The rows matched by the WHERE clause of `calculate_subject_average`. -/
def matchingAssessments (db : List Assessment) (st su t y : Nat) : List Assessment :=
  db.filter fun a => a.studentId = st ∧ a.subjectId = su ∧ a.term = t ∧ a.year = y

/-- Function `calculate_subject_average`:
`SELECT SUM(score * weight) / SUM(weight)` over the matching rows,
then `COALESCE(v_average, 0)`.  Over an empty set both sums are SQL NULL
and the result is `COALESCE(NULL, 0) = 0`; over a non-empty set with
`SUM(weight) = 0` the division raises `division_by_zero`, modelled as
`none`. -/
def calculate_subject_average (db : List Assessment) (st su t y : Nat) : Option Money :=
  if (matchingAssessments db st su t y).isEmpty then some 0
  else if ((matchingAssessments db st su t y).map fun a => a.weight).sum = 0 then none
  else some (((matchingAssessments db st su t y).map fun a => a.score * a.weight).sum /
             ((matchingAssessments db st su t y).map fun a => a.weight).sum)

/-! ### Sequence-number generation
(`generate_invoice_number`, `generate_credit_note_number`,
`generate_student_number`) -/

/-- PostgreSQL `LPAD(s, n, fill)`: pads on the left to length `n`, but
*truncates* `s` on the right to `n` characters when it is longer. -/
def lpad (s : String) (n : Nat) (fill : Char) : String :=
  if n ≤ s.data.length then ⟨s.data.take n⟩
  else ⟨List.replicate (n - s.data.length) fill ++ s.data⟩

/-- The decimal value of one digit character, or `none`. -/
def digitVal? (c : Char) : Option Nat :=
  if '0' ≤ c ∧ c ≤ '9' then some (c.toNat - '0'.toNat) else none

/-- The value of a non-empty all-digit character list (the regex capture
`(\d+)` followed by `CAST(... AS integer)`); `none` otherwise. -/
def digitsToNat? (cs : List Char) : Option Nat :=
  if cs = [] then none
  else cs.foldl (fun acc c =>
    match acc, digitVal? c with
    | some a, some d => some (a * 10 + d)
    | _, _ => none) (some 0)

/-- The remainder of `s` after the literal pattern `p`, when `p` leads it
(the `LIKE 'p%'` filter). -/
def dropLit? : List Char → List Char → Option (List Char)
  | [], rest => some rest
  | _ :: _, [] => none
  | p :: ps, c :: cs => if c = p then dropLit? ps cs else none

/-- The sequence numbers already issued under the given pattern: the
numeric captures of the rows passing the `LIKE` filter (a suffix that
is not numeric yields NULL and is ignored). -/
def issuedSeqs (pfx : String) (numbers : List String) : List Nat :=
  numbers.filterMap fun n =>
    match dropLit? pfx.data n.data with
    | some rest => digitsToNat? rest
    | none => none

/-- `COALESCE((SELECT MAX(CAST(SUBSTRING(number FROM '...-(\d+)'))), 0) + 1`
over the numbers led by the given literal pattern (the `LIKE 'pfx%'`
filter plus the regex capture of the digits after it). -/
def nextSeqNumber (pfx : String) (numbers : List String) : Nat :=
  ((issuedSeqs pfx numbers).foldr max 0) + 1

/-- Function `generate_invoice_number`, with `to_char(current_date,
'YYYY') = toString y` (the application's years are four-digit). -/
def generate_invoice_number (y : Nat) (numbers : List String) : String :=
  "INV-" ++ toString y ++ "-" ++
    lpad (toString (nextSeqNumber ("INV-" ++ toString y ++ "-") numbers)) 3 '0'

/-- Function `generate_credit_note_number`. -/
def generate_credit_note_number (y : Nat) (numbers : List String) : String :=
  "CN-" ++ toString y ++ "-" ++
    lpad (toString (nextSeqNumber ("CN-" ++ toString y ++ "-") numbers)) 3 '0'

/-- Function `generate_student_number` (four-digit padding, no textual
pfx before the year). -/
def generate_student_number (y : Nat) (numbers : List String) : String :=
  toString y ++ "-" ++
    lpad (toString (nextSeqNumber (toString y ++ "-") numbers)) 4 '0'

/-- The numbers handed to two transactions that both call
`generate_invoice_number` against the same table snapshot before either
inserts its invoice — the read-then-write race of the unsynchronized
`MAX + 1` allocator (the function takes no lock and records nothing). -/
def concurrentInvoiceNumbers (y : Nat) (numbers : List String) : List String :=
  [generate_invoice_number y numbers, generate_invoice_number y numbers]

/-! ### Recurring invoices (`src/unnamed/part_012`) -/

/-- `recurring_invoices.frequency` check constraint. -/
inductive Frequency
  | weekly
  | monthly
  | quarterly
  | yearly
deriving DecidableEq

/-- The `CASE frequency ... END` interval step applied to a date:
weekly → 1 week, monthly → 1 calendar month, quarterly → 3 calendar
months, yearly → 1 calendar year. -/
def stepPeriod : Frequency → Date → Date
  | .weekly, d => d.addDays 7
  | .monthly, d => d.addMonths 1
  | .quarterly, d => d.addMonths 3
  | .yearly, d => d.addMonths 12

/-- `recurring_invoices.status` check constraint. -/
inductive RecStatus
  | active
  | paused
  | completed
deriving DecidableEq

/-- A row of the `recurring_invoices` table (`last_generated` is a
timestamp; the function only ever compares and stores it at day
precision, via `last_generated::date` and `CURRENT_TIMESTAMP`, so it is
modelled as a date). -/
structure RecurringInvoice where
  id : Nat
  clientId : Nat
  frequency : Frequency
  startDate : Date
  endDate : Option Date
  description : String
  amount : Money
  taxRate : Money
  status : RecStatus
  lastGenerated : Option Date
deriving DecidableEq

/-- State acted on by `generate_recurring_invoices`: the recurring
templates plus the invoice tables it inserts into (`nextId` models the
generated `uuid` primary keys). -/
structure RecurringDB where
  templates : List RecurringInvoice
  invoiceDB : InvoiceDB
  nextId : Nat
deriving DecidableEq

/-- The WHERE clause of the cursor of `generate_recurring_invoices`:
`status = 'active'`, and `last_generated` null or stepped period due,
and `end_date` null or not yet passed. -/
def dueCondition (today : Date) (r : RecurringInvoice) : Bool :=
  (r.status == .active) &&
  (match r.lastGenerated with
   | none => true
   | some lg => (stepPeriod r.frequency lg).le today) &&
  (match r.endDate with
   | none => true
   | some ed => today.le ed)

/-- The loop body of `generate_recurring_invoices` for one cursor row:
computes the next invoice date from
`COALESCE(last_generated::date, start_date) + period`, inserts the
invoice (dated there, due 30 days later, status `draft`, numbered by
`generate_invoice_number` against the current table), inserts its single
item (which fires `update_invoice_totals`), and stamps
`last_generated := CURRENT_TIMESTAMP`. -/
def processTemplate (today : Date) (db : RecurringDB) (r : RecurringInvoice) :
    RecurringDB :=
  let nextDate := stepPeriod r.frequency (r.lastGenerated.getD r.startDate)
  let num := generate_invoice_number today.year (db.invoiceDB.invoices.map fun i => i.number)
  let inv : Invoice :=
    { id := db.nextId, number := num, clientId := r.clientId, date := nextDate,
      dueDate := nextDate.addDays 30, subtotal := 0, taxRate := r.taxRate,
      taxAmount := 0, total := 0, status := .draft }
  let item : InvoiceItem :=
    { id := db.nextId, invoiceId := db.nextId, description := r.description,
      quantity := 1, rate := r.amount, amount := r.amount }
  let inserted : InvoiceDB := {db.invoiceDB with invoices := db.invoiceDB.invoices ++ [inv]}
  let afterItem : InvoiceDB :=
    match insertInvoiceItem inserted item with
    | .ok d => d
    | .error _ => inserted
  { templates := db.templates.map fun t =>
      if t.id = r.id then {t with lastGenerated := some today} else t,
    invoiceDB := afterItem,
    nextId := db.nextId + 1 }

/-- Function `generate_recurring_invoices`, run with
`CURRENT_DATE = today`: takes a snapshot of the active, due, non-expired
templates and processes each in turn. -/
def generate_recurring_invoices (today : Date) (db : RecurringDB) : RecurringDB :=
  (db.templates.filter (dueCondition today)).foldl (processTemplate today) db

/-- Zero-padding *to at least* `k` characters (never truncating) — the
specification's reading of "left-padded to `k` digits". -/
def zeroPad (k : Nat) (s : String) : String :=
  ⟨List.replicate (k - s.data.length) '0' ++ s.data⟩

/-- Left-to-right cumulative sums: entry `i` of the result is the sum of
the first `i + 1` entries of the input (the specification's reading of a
running balance over "the entries so far"). -/
def cumSums : List ℚ → List ℚ
  | [] => []
  | a :: as => a :: (cumSums as).map fun x => a + x

/-! ### Auxiliary lemmas -/

lemma le_foldrMax (l : List Nat) : ∀ s ∈ l, s ≤ l.foldr max 0 := by
  induction l with
  | nil => simp
  | cons a tl ih =>
    intro s hs
    rcases List.mem_cons.mp hs with h | h
    · simp [h, le_max_iff]
    · simp only [List.foldr_cons, le_max_iff]
      exact Or.inr (ih s h)

lemma foldrMax_eq_zero_or_mem (l : List Nat) : l.foldr max 0 = 0 ∨ l.foldr max 0 ∈ l := by
  induction l with
  | nil => simp
  | cons a tl ih =>
    rcases max_choice a (tl.foldr max 0) with h | h
    · right; simp only [List.foldr_cons, h]; exact List.mem_cons_self a tl
    · rcases ih with h0 | hmem
      · left; rw [List.foldr_cons, h, h0]
      · right; rw [List.foldr_cons, h]; exact List.mem_cons_of_mem a hmem

lemma lpad_of_length_le (s : String) (k : Nat) (h : s.data.length ≤ k) :
    lpad s k '0' = zeroPad k s := by
  unfold lpad zeroPad
  rcases Nat.lt_or_ge s.data.length k with hlt | hge
  · rw [if_neg (by omega)]
  · have heq : s.data.length = k := Nat.le_antisymm h hge
    rw [if_pos (by omega)]
    rw [heq, Nat.sub_self, List.replicate_zero, List.nil_append]
    congr 1
    exact List.take_of_length_le (by omega)

lemma toString_nat_eq_repr (n : Nat) : toString n = Nat.repr n := rfl

/-! ### The claims -/

/-- C1: the specification says invoice (and credit-note) totals are
recomputed on every line-item mutation *including deletion*.  The code's
intent agrees — the trigger is declared `AFTER INSERT OR UPDATE OR
DELETE FOR EACH ROW` — but the trigger function reads `NEW.invoice_id`
(resp. `NEW.credit_note_id`), and in a row-level DELETE trigger `NEW` is
unassigned, so *every* line-item deletion raises `record "new" is not
assigned yet` and is rolled back: totals are never recomputed for a
deletion. -/
theorem c1_delete_item_always_errors :
    (∀ (db : InvoiceDB) (itemId : Nat),
      deleteInvoiceItem db itemId = .error "record new is not assigned yet") ∧
    (∀ (db : CreditNoteDB) (itemId : Nat),
      deleteCreditNoteItem db itemId = .error "record new is not assigned yet") :=
  ⟨fun _ _ => rfl, fun _ _ => rfl⟩

/-- C8: `generate_invoice_number` is an unsynchronized `MAX + 1` scan
that takes no lock and records nothing; two transactions that call it
against the same snapshot (the race the specification warns about) are
handed the *same* number, so N concurrent allocations are not N distinct
numbers — the claimed guarantee does not hold in the code. -/
theorem c8_concurrent_duplicate_numbers :
    concurrentInvoiceNumbers 2025 ["INV-2025-007"] = ["INV-2025-008", "INV-2025-008"] ∧
    ¬ (concurrentInvoiceNumbers 2025 ["INV-2025-007"]).Nodup :=
  ⟨by decide, by decide⟩

/-- C10: for a non-empty matching set whose weights are all 0 (weight 0
passes the schema's `0-100` check), `SUM(weight) = 0` and
`calculate_subject_average` raises division-by-zero instead of returning
a number. -/
theorem c10_zero_weight_divides_by_zero (db : List Assessment) (st su t y : Nat)
    (hne : matchingAssessments db st su t y ≠ [])
    (hw : ∀ a ∈ matchingAssessments db st su t y, a.weight = 0) :
    calculate_subject_average db st su t y = none := by
  unfold calculate_subject_average
  rw [if_neg (by simpa [List.isEmpty_iff] using hne)]
  rw [if_pos]
  exact List.sum_eq_zero fun x hx => by
    rcases List.mem_map.mp hx with ⟨a, ha, rfl⟩
    exact hw a ha

/-- Witness for C10: one assessment with weight 0 and score 50 — both in
the schema's permitted range — makes the function raise. -/
theorem c10_witness :
    calculate_subject_average [⟨1, 1, 1, 1, 2024, 0, 50⟩] 1 1 1 2024 = none :=
  c10_zero_weight_divides_by_zero [⟨1, 1, 1, 1, 2024, 0, 50⟩] 1 1 1 2024
    (by decide) (by decide)

/-- C4: whenever the matching set is empty or its total weight is
non-zero (the guard under which the SQL division is defined),
`calculate_subject_average` returns
`Σ(score_i * weight_i) / Σ(weight_i)` — for the empty set both sums are
0 and the reported value is 0, not an error and not NULL. -/
theorem c4_weighted_average (db : List Assessment) (st su t y : Nat)
    (h : matchingAssessments db st su t y = [] ∨
         ((matchingAssessments db st su t y).map fun a => a.weight).sum ≠ 0) :
    calculate_subject_average db st su t y =
      some (((matchingAssessments db st su t y).map fun a => a.score * a.weight).sum /
            ((matchingAssessments db st su t y).map fun a => a.weight).sum) := by
  unfold calculate_subject_average
  rcases h with h | h
  · rw [if_pos (by simp [h])]
    simp [h]
  · have hne : ¬ (matchingAssessments db st su t y).isEmpty = true := by
      intro he
      exact h (by simp [List.isEmpty_iff.mp he])
    rw [if_neg hne, if_neg h]

/-- Witness for C4: the specification's examples — two assessments of
weight 50 scoring 80 and 60 average to 70, and an empty set yields 0. -/
theorem c4_witness :
    calculate_subject_average [⟨1, 1, 1, 1, 2024, 50, 80⟩, ⟨2, 1, 1, 1, 2024, 50, 60⟩]
        1 1 1 2024 = some 70 ∧
    calculate_subject_average [] 1 1 1 2024 = some 0 := by
  constructor
  · rw [c4_weighted_average _ 1 1 1 2024 (Or.inr (by norm_num [matchingAssessments]))]
    norm_num [matchingAssessments]
  · rw [c4_weighted_average [] 1 1 1 2024 (Or.inl rfl)]
    simp [matchingAssessments]

lemma string_length_eq_data_length (s : String) : s.length = s.data.length := rfl

/-- C5 counterexample: with `INV-2025-999` already issued the next
sequence number is 1000, but PostgreSQL's `LPAD(_, 3, '0')` *truncates*
to 3 characters, so the code returns `INV-2025-100` — not the claimed
`INV-2025-1000` (prefix, year, and the smallest integer greater than the
maximum, left-padded to 3 digits). -/
theorem c5_counterexample :
    generate_invoice_number 2025 ["INV-2025-999"] = "INV-2025-100" ∧
    generate_invoice_number 2025 ["INV-2025-999"] ≠
      "INV-2025-" ++ zeroPad 3 (toString 1000) :=
  ⟨by decide, by decide⟩

/-- C5 (amended): the next sequence number is the smallest positive
integer greater than every sequence number already issued for the
prefix and year; and *as long as that number stays within the pad width*
(3 digits for invoice and credit-note numbers, 4 for student numbers)
the generated identifier is the prefix, the year, and the number
left-padded with zeros — beyond the pad width `LPAD` truncates. -/
theorem c5_sequence_generators :
    (∀ (pfx : String) (numbers : List String),
      (∀ s ∈ issuedSeqs pfx numbers, s < nextSeqNumber pfx numbers) ∧
      ∀ m, 0 < m → (∀ s ∈ issuedSeqs pfx numbers, s < m) → nextSeqNumber pfx numbers ≤ m) ∧
    (∀ (y : Nat) (numbers : List String),
      nextSeqNumber ("INV-" ++ toString y ++ "-") numbers ≤ 999 →
      generate_invoice_number y numbers =
        "INV-" ++ toString y ++ "-" ++
          zeroPad 3 (toString (nextSeqNumber ("INV-" ++ toString y ++ "-") numbers))) ∧
    (∀ (y : Nat) (numbers : List String),
      nextSeqNumber ("CN-" ++ toString y ++ "-") numbers ≤ 999 →
      generate_credit_note_number y numbers =
        "CN-" ++ toString y ++ "-" ++
          zeroPad 3 (toString (nextSeqNumber ("CN-" ++ toString y ++ "-") numbers))) ∧
    (∀ (y : Nat) (numbers : List String),
      nextSeqNumber (toString y ++ "-") numbers ≤ 9999 →
      generate_student_number y numbers =
        toString y ++ "-" ++
          zeroPad 4 (toString (nextSeqNumber (toString y ++ "-") numbers))) := by
  refine ⟨fun pfx numbers => ⟨fun s hs => ?_, fun m hm hlt => ?_⟩, ?_, ?_, ?_⟩
  · exact Nat.lt_succ_of_le (le_foldrMax _ s hs)
  · unfold nextSeqNumber
    rcases foldrMax_eq_zero_or_mem (issuedSeqs pfx numbers) with h0 | hmem
    · rw [h0]; omega
    · exact Nat.succ_le_of_lt (hlt _ hmem)
  · intro y numbers h
    unfold generate_invoice_number
    rw [lpad_of_length_le _ 3 ?_]
    rw [toString_nat_eq_repr, ← string_length_eq_data_length]
    exact Nat.repr_length _ 3 (by norm_num) (by norm_num; omega)
  · intro y numbers h
    unfold generate_credit_note_number
    rw [lpad_of_length_le _ 3 ?_]
    rw [toString_nat_eq_repr, ← string_length_eq_data_length]
    exact Nat.repr_length _ 3 (by norm_num) (by norm_num; omega)
  · intro y numbers h
    unfold generate_student_number
    rw [lpad_of_length_le _ 4 ?_]
    rw [toString_nat_eq_repr, ← string_length_eq_data_length]
    exact Nat.repr_length _ 4 (by norm_num) (by norm_num; omega)

/-- Witness for C5: concrete states of the three tables — the next
number after `INV-2025-041` is 42, rendered `INV-2025-042`; likewise for
credit notes and (4-digit) student numbers. -/
theorem c5_witness :
    (∀ s ∈ issuedSeqs "INV-2025-" ["INV-2025-041"],
        s < nextSeqNumber "INV-2025-" ["INV-2025-041"]) ∧
    generate_invoice_number 2025 ["INV-2025-041"] = "INV-2025-042" ∧
    generate_credit_note_number 2025 ["CN-2025-011"] = "CN-2025-012" ∧
    generate_student_number 2025 ["2025-0007"] = "2025-0008" :=
  ⟨(c5_sequence_generators.1 "INV-2025-" ["INV-2025-041"]).1,
   by rw [c5_sequence_generators.2.1 2025 ["INV-2025-041"] (by decide)]; decide,
   by rw [c5_sequence_generators.2.2.1 2025 ["CN-2025-011"] (by decide)]; decide,
   by rw [c5_sequence_generators.2.2.2 2025 ["2025-0007"] (by decide)]; decide⟩

lemma applyInvoiceTotals_spec (invoices : List Invoice) (items : List InvoiceItem)
    (invId : Nat) (inv : Invoice)
    (hm : inv ∈ applyInvoiceTotals invoices items invId) (hid : inv.id = invId) :
    inv.subtotal = sumItemAmounts items invId ∧
    inv.taxAmount = inv.subtotal * (inv.taxRate / 100) ∧
    inv.total = inv.subtotal + inv.taxAmount := by
  simp only [applyInvoiceTotals, List.map_map] at hm
  rcases List.mem_map.mp hm with ⟨a, _, rfl⟩
  by_cases h1 : a.id = invId
  · simp only [Function.comp, if_pos h1]
    exact ⟨trivial, trivial, trivial⟩
  · simp only [Function.comp, if_neg h1] at hid
    exact absurd hid h1

lemma applyCreditNoteTotals_spec (notes : List CreditNote) (items : List CreditNoteItem)
    (cnId : Nat) (cn : CreditNote)
    (hm : cn ∈ applyCreditNoteTotals notes items cnId) (hid : cn.id = cnId) :
    cn.subtotal = sumCreditNoteItemAmounts items cnId ∧
    cn.taxAmount = cn.subtotal * (cn.taxRate / 100) ∧
    cn.total = cn.subtotal + cn.taxAmount := by
  simp only [applyCreditNoteTotals, List.map_map] at hm
  rcases List.mem_map.mp hm with ⟨a, _, rfl⟩
  by_cases h1 : a.id = cnId
  · simp only [Function.comp, if_pos h1]
    exact ⟨trivial, trivial, trivial⟩
  · simp only [Function.comp, if_neg h1] at hid
    exact absurd hid h1

/-- C3 counterexample: an invoice with tax rate 15 and a single
line item of amount 0.10 gets `tax_amount = 0.10 * 15/100 = 0.015`
stored verbatim — the code performs *no* rounding to 2 decimal places,
while the claim demands `round(subtotal * tax_rate/100, 2) = 0.02`. -/
theorem c3_counterexample :
    insertInvoiceItem
        ⟨[⟨1, "INV-2025-001", 1, ⟨2025, 1, 1⟩, ⟨2025, 1, 31⟩, 0, 15, 0, 0, .draft⟩], []⟩
        ⟨1, 1, "Service", 1, 1/10, 1/10⟩ =
      .ok ⟨[⟨1, "INV-2025-001", 1, ⟨2025, 1, 1⟩, ⟨2025, 1, 31⟩, 1/10, 15, 3/200, 23/200, .draft⟩],
           [⟨1, 1, "Service", 1, 1/10, 1/10⟩]⟩ ∧
    round2 ((1/10) * (15 / 100)) = 2/100 ∧ ((3 : ℚ)/200) ≠ 2/100 := by
  refine ⟨?_, ?_, by norm_num⟩
  · norm_num [insertInvoiceItem, update_invoice_totals, applyInvoiceTotals, sumItemAmounts]
  · norm_num [round2, round_eq]

/-- C3 (amended): after a successful line-item insert or update, the
mutated document's stored totals satisfy the *exact* (unrounded)
relations `subtotal = Σ amount`, `tax_amount = subtotal * tax_rate/100`
and `total = subtotal + tax_amount`, in exact `numeric` arithmetic —
there is no rounding of `tax_amount` to 2 decimal places. -/
theorem c3_exact_totals :
    (∀ (db db' : InvoiceDB) (r : InvoiceItem) (inv : Invoice),
      (insertInvoiceItem db r = .ok db' ∨ updateInvoiceItem db r = .ok db') →
      inv ∈ db'.invoices → inv.id = r.invoiceId →
      inv.subtotal = sumItemAmounts db'.invoiceItems r.invoiceId ∧
      inv.taxAmount = inv.subtotal * (inv.taxRate / 100) ∧
      inv.total = inv.subtotal + inv.taxAmount) ∧
    (∀ (db db' : CreditNoteDB) (r : CreditNoteItem) (cn : CreditNote),
      (insertCreditNoteItem db r = .ok db' ∨ updateCreditNoteItem db r = .ok db') →
      cn ∈ db'.creditNotes → cn.id = r.creditNoteId →
      cn.subtotal = sumCreditNoteItemAmounts db'.creditNoteItems r.creditNoteId ∧
      cn.taxAmount = cn.subtotal * (cn.taxRate / 100) ∧
      cn.total = cn.subtotal + cn.taxAmount) := by
  constructor
  · intro db db' r inv h hm hid
    rcases h with h | h
    · simp only [insertInvoiceItem, update_invoice_totals, Except.ok.injEq] at h
      subst h
      exact applyInvoiceTotals_spec _ _ _ _ hm hid
    · simp only [updateInvoiceItem, update_invoice_totals, Except.ok.injEq] at h
      subst h
      exact applyInvoiceTotals_spec _ _ _ _ hm hid
  · intro db db' r cn h hm hid
    rcases h with h | h
    · simp only [insertCreditNoteItem, update_credit_note_totals, Except.ok.injEq] at h
      subst h
      exact applyCreditNoteTotals_spec _ _ _ _ hm hid
    · simp only [updateCreditNoteItem, update_credit_note_totals, Except.ok.injEq] at h
      subst h
      exact applyCreditNoteTotals_spec _ _ _ _ hm hid

/-- Witness for C3: inserting a line item of amount 200 into an invoice
with tax rate 15 yields stored totals 200 / 30 / 230 satisfying the
exact relations; likewise a credit-note line item updated to amount 200
yields note totals 200 / 30 / 230. -/
theorem c3_witness :
    ((⟨1, "INV-2025-001", 1, ⟨2025, 1, 1⟩, ⟨2025, 1, 31⟩, 200, 15, 30, 230, .draft⟩ :
        Invoice).subtotal = sumItemAmounts [⟨1, 1, "Tuition", 1, 200, 200⟩] 1 ∧
    (⟨1, "INV-2025-001", 1, ⟨2025, 1, 1⟩, ⟨2025, 1, 31⟩, 200, 15, 30, 230, .draft⟩ :
        Invoice).taxAmount = (200 : ℚ) * ((15 : ℚ) / 100) ∧
    (⟨1, "INV-2025-001", 1, ⟨2025, 1, 1⟩, ⟨2025, 1, 31⟩, 200, 15, 30, 230, .draft⟩ :
        Invoice).total = (200 : ℚ) + (30 : ℚ)) ∧
    ((⟨1, "CN-2025-001", none, 1, ⟨2025, 2, 1⟩, "Overcharge", 200, 15, 30, 230, .draft⟩ :
        CreditNote).subtotal = sumCreditNoteItemAmounts [⟨1, 1, "Refund", 1, 200, 200⟩] 1 ∧
    (⟨1, "CN-2025-001", none, 1, ⟨2025, 2, 1⟩, "Overcharge", 200, 15, 30, 230, .draft⟩ :
        CreditNote).taxAmount = (200 : ℚ) * ((15 : ℚ) / 100) ∧
    (⟨1, "CN-2025-001", none, 1, ⟨2025, 2, 1⟩, "Overcharge", 200, 15, 30, 230, .draft⟩ :
        CreditNote).total = (200 : ℚ) + (30 : ℚ)) :=
  ⟨c3_exact_totals.1
    ⟨[⟨1, "INV-2025-001", 1, ⟨2025, 1, 1⟩, ⟨2025, 1, 31⟩, 0, 15, 0, 0, .draft⟩], []⟩
    ⟨[⟨1, "INV-2025-001", 1, ⟨2025, 1, 1⟩, ⟨2025, 1, 31⟩, 200, 15, 30, 230, .draft⟩],
     [⟨1, 1, "Tuition", 1, 200, 200⟩]⟩
    ⟨1, 1, "Tuition", 1, 200, 200⟩
    ⟨1, "INV-2025-001", 1, ⟨2025, 1, 1⟩, ⟨2025, 1, 31⟩, 200, 15, 30, 230, .draft⟩
    (Or.inl (by norm_num [insertInvoiceItem, update_invoice_totals, applyInvoiceTotals,
      sumItemAmounts]))
    (by simp) rfl,
   c3_exact_totals.2
    ⟨[⟨1, "CN-2025-001", none, 1, ⟨2025, 2, 1⟩, "Overcharge", 100, 15, 15, 115, .draft⟩],
     [⟨1, 1, "Refund", 1, 100, 100⟩]⟩
    ⟨[⟨1, "CN-2025-001", none, 1, ⟨2025, 2, 1⟩, "Overcharge", 200, 15, 30, 230, .draft⟩],
     [⟨1, 1, "Refund", 1, 200, 200⟩]⟩
    ⟨1, 1, "Refund", 1, 200, 200⟩
    ⟨1, "CN-2025-001", none, 1, ⟨2025, 2, 1⟩, "Overcharge", 200, 15, 30, 230, .draft⟩
    (Or.inr (by norm_num [updateCreditNoteItem, update_credit_note_totals,
      applyCreditNoteTotals, sumCreditNoteItemAmounts]))
    (by simp) rfl⟩

lemma processTemplate_status (today : Date) (db : RecurringDB) (r : RecurringInvoice) :
    ((processTemplate today db r).templates.map fun t => t.status) =
      db.templates.map fun t => t.status := by
  simp only [processTemplate, List.map_map]
  refine List.map_congr_left fun t _ => ?_
  by_cases h : t.id = r.id
  · simp [Function.comp, if_pos h]
  · simp [Function.comp, if_neg h]

lemma foldl_processTemplate_status (today : Date) (rs : List RecurringInvoice) :
    ∀ db : RecurringDB,
      ((rs.foldl (processTemplate today) db).templates.map fun t => t.status) =
        db.templates.map fun t => t.status := by
  induction rs with
  | nil => intro db; rfl
  | cons a tl ih =>
    intro db
    rw [List.foldl_cons, ih (processTemplate today db a), processTemplate_status]

/-- C7 (amended): `generate_recurring_invoices` — the only system-side
actor — never changes any template's status: there is no system
transition `active → completed` anywhere in the code.  A template whose
`end_date` has passed is merely skipped by the cursor's WHERE clause and
stays `active`.  (The schema permits the three statuses and ordinary
row updates may move between them; nothing enforces the claimed state
machine.) -/
theorem c7_status_never_changed (today : Date) (db : RecurringDB) :
    ((generate_recurring_invoices today db).templates.map fun t => t.status) =
      db.templates.map fun t => t.status := by
  unfold generate_recurring_invoices
  exact foldl_processTemplate_status today _ db

/-- C7 counterexample: an `active` template whose `end_date` (2025-03-31,
after its start date, as the check constraint requires) lies before
today (2025-04-02) is still `active` — not `completed` — after the
generator runs. -/
theorem c7_counterexample :
    ¬ (⟨2025, 4, 2⟩ : Date).le ⟨2025, 3, 31⟩ ∧
    ((generate_recurring_invoices ⟨2025, 4, 2⟩
        ⟨[⟨1, 1, .monthly, ⟨2025, 1, 1⟩, some ⟨2025, 3, 31⟩, "svc", 100, 0, .active, none⟩],
         ⟨[], []⟩, 5⟩).templates.map fun t => t.status) = [.active] :=
  ⟨by decide, by decide⟩

lemma applyInvoiceTotals_append_fresh (old : List Invoice) (inv0 : Invoice)
    (items : List InvoiceItem) (nid : Nat)
    (hfresh : ∀ i ∈ old, ¬ i.id = nid) (hid : inv0.id = nid) :
    applyInvoiceTotals (old ++ [inv0]) items nid =
      old ++ [{inv0 with
        subtotal := sumItemAmounts items nid,
        taxAmount := sumItemAmounts items nid * (inv0.taxRate / 100),
        total := sumItemAmounts items nid + sumItemAmounts items nid * (inv0.taxRate / 100)}] := by
  simp only [applyInvoiceTotals, List.map_map, List.map_append]
  congr 1
  · conv_rhs => rw [← List.map_id old]
    refine List.map_congr_left fun i hi => ?_
    simp [Function.comp, if_neg (hfresh i hi)]
  · simp [Function.comp, if_pos hid]

/-- C6 counterexample: an `active` template with `last_generated` null —
for which the claim's condition says an instance is generated — is *not*
processed when its `end_date` has passed: the cursor also requires
`end_date IS NULL OR end_date >= CURRENT_DATE`, which the claim omits. -/
theorem c6_counterexample :
    (⟨1, 1, .monthly, ⟨2025, 1, 1⟩, some ⟨2025, 6, 1⟩, "svc", 100, 0, .active, none⟩ :
        RecurringInvoice).status = .active ∧
    (⟨1, 1, .monthly, ⟨2025, 1, 1⟩, some ⟨2025, 6, 1⟩, "svc", 100, 0, .active, none⟩ :
        RecurringInvoice).lastGenerated = none ∧
    generate_recurring_invoices ⟨2025, 6, 15⟩
        ⟨[⟨1, 1, .monthly, ⟨2025, 1, 1⟩, some ⟨2025, 6, 1⟩, "svc", 100, 0, .active, none⟩],
         ⟨[], []⟩, 1⟩ =
      ⟨[⟨1, 1, .monthly, ⟨2025, 1, 1⟩, some ⟨2025, 6, 1⟩, "svc", 100, 0, .active, none⟩],
       ⟨[], []⟩, 1⟩ :=
  ⟨rfl, rfl, by decide⟩

/-- C6 (amended): for a (single-template) state, an invoice instance is
generated *exactly* when the template is active, `last_generated` is
null or `last_generated + period <= today`, **and** `end_date` is null
or `end_date >= today` (the cursor's full WHERE clause); the generated
invoice is dated `COALESCE(last_generated, start_date) + period` (not
today) and due 30 days later, and afterwards the template's
`last_generated` is the current timestamp. -/
theorem c6_generation_step (today : Date) (db : RecurringDB) (r : RecurringInvoice)
    (htp : db.templates = [r])
    (hfresh : ∀ i ∈ db.invoiceDB.invoices, ¬ i.id = db.nextId) :
    (dueCondition today r = false → generate_recurring_invoices today db = db) ∧
    (dueCondition today r = true →
      ∃ inv : Invoice,
        (generate_recurring_invoices today db).invoiceDB.invoices =
          db.invoiceDB.invoices ++ [inv] ∧
        inv.date = stepPeriod r.frequency (r.lastGenerated.getD r.startDate) ∧
        inv.dueDate = (stepPeriod r.frequency (r.lastGenerated.getD r.startDate)).addDays 30 ∧
        (generate_recurring_invoices today db).templates =
          [{r with lastGenerated := some today}]) := by
  unfold generate_recurring_invoices
  rw [htp]
  constructor
  · intro hfalse
    simp [List.filter_cons, hfalse]
  · intro htrue
    simp only [List.filter_cons, List.filter_nil, htrue, if_true]
    rw [List.foldl_cons, List.foldl_nil]
    simp only [processTemplate, insertInvoiceItem, update_invoice_totals]
    rw [applyInvoiceTotals_append_fresh _ _ _ _ hfresh rfl]
    refine ⟨_, rfl, ?_, ?_, ?_⟩
    · simp
    · simp
    · rw [htp]
      simp

set_option maxRecDepth 4000 in
/-- Witness for C6: a due template (active, `last_generated` null, no
end date) stepping monthly from 2025-01-31 generates, on 2025-02-05, an
invoice dated 2025-02-28 (the calendar-clamped month step, not today)
and due 30 days later, and the template's `last_generated` becomes
today. -/
theorem c6_witness :
    dueCondition ⟨2025, 2, 5⟩
        ⟨1, 1, .monthly, ⟨2025, 1, 31⟩, none, "Monthly tuition", 100, 0, .active, none⟩ = true ∧
    (dueCondition ⟨2025, 2, 5⟩
        ⟨1, 1, .monthly, ⟨2025, 1, 31⟩, none, "Monthly tuition", 100, 0, .active, none⟩ = false →
      generate_recurring_invoices ⟨2025, 2, 5⟩
          ⟨[⟨1, 1, .monthly, ⟨2025, 1, 31⟩, none, "Monthly tuition", 100, 0, .active, none⟩],
           ⟨[], []⟩, 1⟩ =
        ⟨[⟨1, 1, .monthly, ⟨2025, 1, 31⟩, none, "Monthly tuition", 100, 0, .active, none⟩],
         ⟨[], []⟩, 1⟩) ∧
    (dueCondition ⟨2025, 2, 5⟩
        ⟨1, 1, .monthly, ⟨2025, 1, 31⟩, none, "Monthly tuition", 100, 0, .active, none⟩ = true →
      ∃ inv : Invoice,
        (generate_recurring_invoices ⟨2025, 2, 5⟩
            ⟨[⟨1, 1, .monthly, ⟨2025, 1, 31⟩, none, "Monthly tuition", 100, 0, .active, none⟩],
             ⟨[], []⟩, 1⟩).invoiceDB.invoices = ([] : List Invoice) ++ [inv] ∧
        inv.date = (⟨2025, 2, 28⟩ : Date) ∧
        inv.dueDate = (⟨2025, 3, 30⟩ : Date) ∧
        (generate_recurring_invoices ⟨2025, 2, 5⟩
            ⟨[⟨1, 1, .monthly, ⟨2025, 1, 31⟩, none, "Monthly tuition", 100, 0, .active, none⟩],
             ⟨[], []⟩, 1⟩).templates =
          [⟨1, 1, .monthly, ⟨2025, 1, 31⟩, none, "Monthly tuition", 100, 0, .active,
            some ⟨2025, 2, 5⟩⟩]) :=
  ⟨by decide,
   (c6_generation_step ⟨2025, 2, 5⟩
      ⟨[⟨1, 1, .monthly, ⟨2025, 1, 31⟩, none, "Monthly tuition", 100, 0, .active, none⟩],
       ⟨[], []⟩, 1⟩
      ⟨1, 1, .monthly, ⟨2025, 1, 31⟩, none, "Monthly tuition", 100, 0, .active, none⟩
      rfl (by simp)).1,
   (c6_generation_step ⟨2025, 2, 5⟩
      ⟨[⟨1, 1, .monthly, ⟨2025, 1, 31⟩, none, "Monthly tuition", 100, 0, .active, none⟩],
       ⟨[], []⟩, 1⟩
      ⟨1, 1, .monthly, ⟨2025, 1, 31⟩, none, "Monthly tuition", 100, 0, .active, none⟩
      rfl (by simp)).2⟩

lemma entryKey_set_balance (t : StatementEntry) (x : Money) :
    entryKey {t with runningBalance := x} = entryKey t := rfl

lemma windowBalance_strict (l : List StatementEntry)
    (hl : l.Pairwise fun a b => entryKey a < entryKey b) :
    l.map (windowBalance l) = cumSums (l.map entryNet) := by
  induction l with
  | nil => rfl
  | cons a tl ih =>
    rcases List.pairwise_cons.mp hl with ⟨ha, htl⟩
    have hfilter_nil : tl.filter (fun u => entryKey u ≤ entryKey a) = [] :=
      List.filter_eq_nil_iff.mpr fun b hb => by
        simpa using Nat.not_le.mpr (ha b hb)
    have hstep : ∀ t ∈ tl, windowBalance (a :: tl) t = entryNet a + windowBalance tl t := by
      intro t ht
      unfold windowBalance
      rw [List.filter_cons_of_pos (by simpa using Nat.le_of_lt (ha t ht)), List.map_cons,
        List.sum_cons]
    calc (a :: tl).map (windowBalance (a :: tl))
        = windowBalance (a :: tl) a :: tl.map (windowBalance (a :: tl)) := rfl
      _ = entryNet a :: tl.map fun t => entryNet a + windowBalance tl t := by
          congr 1
          · unfold windowBalance
            rw [List.filter_cons_of_pos (by simp), hfilter_nil]
            simp
          · exact List.map_congr_left hstep
      _ = entryNet a :: ((tl.map (windowBalance tl)).map fun x => entryNet a + x) := by
          rw [List.map_map]; rfl
      _ = entryNet a :: ((cumSums (tl.map entryNet)).map fun x => entryNet a + x) := by
          rw [ih htl]
      _ = cumSums ((a :: tl).map entryNet) := rfl

lemma sorted_nodup_keys_pairwise (l : List StatementEntry)
    (hs : List.Sorted entryLE l) (hnd : (l.map entryKey).Nodup) :
    l.Pairwise fun a b => entryKey a < entryKey b := by
  have h2 : l.Pairwise fun a b => entryKey a ≠ entryKey b := List.pairwise_map.mp hnd
  exact hs.imp₂ (fun a b hle hne => Nat.lt_of_le_of_ne hle hne) h2

/-- C2 counterexample: two `sent` invoices of totals 100 and 50 on the
same date tie on the sort key, and the window's RANGE frame includes
peers: both entries carry running balance 150, whereas a left-to-right
cumulative sum over the returned order would be [100, 150]. -/
theorem c2_counterexample :
    ((get_client_statement
        [⟨1, "A", 1, ⟨2024, 1, 10⟩, ⟨2024, 1, 10⟩, 0, 0, 0, 100, .sent⟩,
         ⟨2, "B", 1, ⟨2024, 1, 10⟩, ⟨2024, 1, 10⟩, 0, 0, 0, 50, .sent⟩]
        1 ⟨2024, 1, 1⟩ ⟨2024, 12, 31⟩).map fun t => t.runningBalance) = [150, 150] ∧
    cumSums ((get_client_statement
        [⟨1, "A", 1, ⟨2024, 1, 10⟩, ⟨2024, 1, 10⟩, 0, 0, 0, 100, .sent⟩,
         ⟨2, "B", 1, ⟨2024, 1, 10⟩, ⟨2024, 1, 10⟩, 0, 0, 0, 50, .sent⟩]
        1 ⟨2024, 1, 1⟩ ⟨2024, 12, 31⟩).map entryNet) = [100, 150] ∧
    ([150, 150] : List ℚ) ≠ [100, 150] := by
  refine ⟨?_, ?_, by decide⟩
  · simp [get_client_statement, windowBalance, statementTransactions, invoiceTransactions,
      paymentTransactions, List.insertionSort, List.orderedInsert, entryLE, entryKey, entryNet,
      Date.le, Date.key, List.filter_cons]
    norm_num
  · simp [get_client_statement, cumSums, windowBalance, statementTransactions,
      invoiceTransactions, paymentTransactions, List.insertionSort, List.orderedInsert,
      entryLE, entryKey, entryNet, Date.le, Date.key, List.filter_cons]
    norm_num

/-- C2 (amended): the statement is sorted by
`(date, invoice-before-payment)`, and *when no two entries tie on that
key* the running balances are exactly the left-to-right cumulative sums
of `debit - credit`; entries that tie share a balance that includes
their whole peer group (the SQL window's RANGE frame). -/
theorem c2_running_balance (invs : List Invoice) (c : Nat) (s e : Date)
    (h : ((statementTransactions invs c s e).map entryKey).Nodup) :
    List.Pairwise entryLE (get_client_statement invs c s e) ∧
    ((get_client_statement invs c s e).map fun t => t.runningBalance) =
      cumSums ((get_client_statement invs c s e).map entryNet) := by
  have hperm : List.Perm (List.insertionSort entryLE (statementTransactions invs c s e))
      (statementTransactions invs c s e) :=
    List.perm_insertionSort entryLE (statementTransactions invs c s e)
  have hsorted : List.Sorted entryLE
      (List.insertionSort entryLE (statementTransactions invs c s e)) :=
    List.sorted_insertionSort entryLE (statementTransactions invs c s e)
  have hnd : ((List.insertionSort entryLE (statementTransactions invs c s e)).map
      entryKey).Nodup := ((hperm.map entryKey).nodup_iff).mpr h
  have hpl : (List.insertionSort entryLE (statementTransactions invs c s e)).Pairwise
      (fun a b => entryKey a < entryKey b) :=
    sorted_nodup_keys_pairwise _ hsorted hnd
  constructor
  · show List.Pairwise entryLE
      ((List.insertionSort entryLE (statementTransactions invs c s e)).map fun t =>
        {t with runningBalance :=
          windowBalance (List.insertionSort entryLE (statementTransactions invs c s e)) t})
    exact hsorted.map _ fun a b hab => by
      simpa [entryLE, entryKey_set_balance] using hab
  · show ((List.insertionSort entryLE (statementTransactions invs c s e)).map fun t =>
        {t with runningBalance :=
          windowBalance (List.insertionSort entryLE (statementTransactions invs c s e)) t}).map
          (fun t => t.runningBalance) =
      cumSums (((List.insertionSort entryLE (statementTransactions invs c s e)).map fun t =>
        {t with runningBalance :=
          windowBalance (List.insertionSort entryLE (statementTransactions invs c s e)) t}).map
          entryNet)
    rw [List.map_map, List.map_map]
    exact windowBalance_strict _ hpl

/-- Witness for C2: the specification's example — a paid invoice of 100
on d1 (yielding a d1 invoice entry and a d1 payment entry) and a sent
invoice of 50 on d2 — has pairwise-distinct sort keys and running
balances [100, 0, 50]. -/
theorem c2_witness :
    ((statementTransactions
        [⟨1, "001", 1, ⟨2024, 1, 10⟩, ⟨2024, 1, 10⟩, 0, 0, 0, 100, .paid⟩,
         ⟨2, "002", 1, ⟨2024, 1, 20⟩, ⟨2024, 1, 20⟩, 0, 0, 0, 50, .sent⟩]
        1 ⟨2024, 1, 1⟩ ⟨2024, 12, 31⟩).map entryKey).Nodup ∧
    ((get_client_statement
        [⟨1, "001", 1, ⟨2024, 1, 10⟩, ⟨2024, 1, 10⟩, 0, 0, 0, 100, .paid⟩,
         ⟨2, "002", 1, ⟨2024, 1, 20⟩, ⟨2024, 1, 20⟩, 0, 0, 0, 50, .sent⟩]
        1 ⟨2024, 1, 1⟩ ⟨2024, 12, 31⟩).map fun t => t.runningBalance) = [100, 0, 50] := by
  constructor
  · decide
  · rw [(c2_running_balance
      [⟨1, "001", 1, ⟨2024, 1, 10⟩, ⟨2024, 1, 10⟩, 0, 0, 0, 100, .paid⟩,
       ⟨2, "002", 1, ⟨2024, 1, 20⟩, ⟨2024, 1, 20⟩, 0, 0, 0, 50, .sent⟩]
      1 ⟨2024, 1, 1⟩ ⟨2024, 12, 31⟩ (by decide)).2]
    simp [get_client_statement, cumSums, windowBalance, statementTransactions,
      invoiceTransactions, paymentTransactions, List.insertionSort, List.orderedInsert,
      entryLE, entryKey, entryNet, Date.le, Date.key, List.filter_cons]

lemma windowBalance_of_max (l : List StatementEntry) (t : StatementEntry)
    (hmax : ∀ u ∈ l, entryKey u ≤ entryKey t) :
    windowBalance l t = (l.map entryNet).sum := by
  unfold windowBalance
  rw [List.filter_eq_self.mpr fun u hu => by simpa using hmax u hu]

lemma finalBalance_eq_net_sum (invs : List Invoice) (c : Nat) (s e : Date) :
    finalBalance invs c s e = ((statementTransactions invs c s e).map entryNet).sum := by
  have hperm : List.Perm (List.insertionSort entryLE (statementTransactions invs c s e))
      (statementTransactions invs c s e) :=
    List.perm_insertionSort entryLE (statementTransactions invs c s e)
  have hsorted : List.Sorted entryLE
      (List.insertionSort entryLE (statementTransactions invs c s e)) :=
    List.sorted_insertionSort entryLE (statementTransactions invs c s e)
  rcases hcase : (List.insertionSort entryLE (statementTransactions invs c s e)).getLast?
    with _ | t
  · have hnil : List.insertionSort entryLE (statementTransactions invs c s e) = [] :=
      List.getLast?_eq_none_iff.mp hcase
    have htx : statementTransactions invs c s e = [] := (hnil ▸ hperm).symm.eq_nil
    simp [finalBalance, get_client_statement, hnil, htx]
  · obtain ⟨ys, hys⟩ := List.getLast?_eq_some_iff.mp hcase
    have hmax : ∀ u ∈ List.insertionSort entryLE (statementTransactions invs c s e),
        entryKey u ≤ entryKey t := by
      intro u hu
      rw [hys] at hsorted hu
      rcases List.mem_append.mp hu with h | h
      · exact (List.pairwise_append.mp hsorted).2.2 u h t (by simp)
      · rw [List.mem_singleton.mp h]
    have hfb : finalBalance invs c s e =
        windowBalance (List.insertionSort entryLE (statementTransactions invs c s e)) t := by
      simp [finalBalance, get_client_statement, hcase]
    rw [hfb, windowBalance_of_max _ _ hmax]
    exact (hperm.map entryNet).sum_eq

lemma sum_map_neg_rat (l : List Invoice) (f : Invoice → ℚ) :
    (l.map fun x => -(f x)).sum = -((l.map f).sum) := by
  induction l with
  | nil => simp
  | cons a tl ih => simp [ih]; ring

lemma invoiceTransactions_net_sum (invs : List Invoice) (c : Nat) (s e : Date) :
    ((invoiceTransactions invs c s e).map entryNet).sum =
      ((invs.filter fun i => i.clientId = c ∧ s.le i.date ∧ i.date.le e).map
        fun i => i.total).sum := by
  unfold invoiceTransactions
  rw [List.map_map]
  refine congrArg List.sum (List.map_congr_left fun i _ => ?_)
  simp [entryNet]

lemma paymentTransactions_net_sum (invs : List Invoice) (c : Nat) (s e : Date) :
    ((paymentTransactions invs c s e).map entryNet).sum =
      -(((invs.filter fun i =>
            i.clientId = c ∧ s.le i.date ∧ i.date.le e ∧ i.status = InvoiceStatus.paid).map
          fun i => i.total).sum) := by
  unfold paymentTransactions
  rw [List.map_map, ← sum_map_neg_rat]
  refine congrArg List.sum (List.map_congr_left fun i _ => ?_)
  simp [entryNet]

lemma sum_client_split (l : List Invoice) (c : Nat) :
    ((l.filter fun i => i.clientId = c).map fun i => i.total).sum =
      ((l.filter fun i => i.clientId = c ∧ i.status = InvoiceStatus.paid).map
        fun i => i.total).sum +
      ((l.filter fun i => i.clientId = c ∧ ¬ i.status = InvoiceStatus.paid).map
        fun i => i.total).sum := by
  induction l with
  | nil => simp
  | cons a tl ih =>
    by_cases hp : a.clientId = c
    · by_cases hq : a.status = InvoiceStatus.paid
      · simp only [List.filter_cons]
        simp [hp, hq, ih]
        ring
      · simp only [List.filter_cons]
        simp [hp, hq, ih]
        ring
    · simp only [List.filter_cons]
      simp [hp, ih]

/-- C9 counterexample: the statement's debit side has *no* status
filter, so a lone `draft` invoice of 100 produces a final running
balance of 100, while the summary's `total_outstanding` counts only
`sent` and `overdue` invoices and is 0. -/
theorem c9_counterexample :
    finalBalance [⟨1, "D", 1, ⟨2024, 1, 10⟩, ⟨2024, 1, 10⟩, 0, 0, 0, 100, .draft⟩]
        1 ⟨2024, 1, 1⟩ ⟨2024, 12, 31⟩ = 100 ∧
    (client_statement_summary
        [⟨1, "D", 1, ⟨2024, 1, 10⟩, ⟨2024, 1, 10⟩, 0, 0, 0, 100, .draft⟩] 1).totalOutstanding =
      0 ∧
    ((100 : ℚ) ≠ 0) := by
  refine ⟨?_, ?_, by norm_num⟩
  · simp [finalBalance, get_client_statement, windowBalance, statementTransactions,
      invoiceTransactions, paymentTransactions, List.insertionSort, List.orderedInsert,
      entryLE, entryKey, entryNet, Date.le, Date.key, List.filter_cons]
  · simp [client_statement_summary, List.filter_cons]

/-- C9 (amended): over a date range covering all of the client's
invoices, and provided the client has *no draft invoices*, the final
running balance of `get_client_statement` equals the summary's
`total_outstanding`; a draft invoice shifts the final balance above the
summary's outstanding figure. -/
theorem c9_final_balance (invs : List Invoice) (c : Nat) (s e : Date)
    (hcover : ∀ i ∈ invs, i.clientId = c → (s.le i.date ∧ i.date.le e))
    (hnodraft : ∀ i ∈ invs, i.clientId = c → ¬ i.status = InvoiceStatus.draft) :
    finalBalance invs c s e = (client_statement_summary invs c).totalOutstanding := by
  have hA : (invs.filter fun i => i.clientId = c ∧ s.le i.date ∧ i.date.le e) =
      invs.filter fun i => i.clientId = c := by
    apply List.filter_congr
    intro i hi
    by_cases hc : i.clientId = c
    · simp [hc, (hcover i hi hc).1, (hcover i hi hc).2]
    · simp [hc]
  have hP : (invs.filter fun i =>
        i.clientId = c ∧ s.le i.date ∧ i.date.le e ∧ i.status = InvoiceStatus.paid) =
      invs.filter fun i => i.clientId = c ∧ i.status = InvoiceStatus.paid := by
    apply List.filter_congr
    intro i hi
    by_cases hc : i.clientId = c
    · simp [hc, (hcover i hi hc).1, (hcover i hi hc).2]
    · simp [hc]
  have hO : ((invs.filter fun i => i.clientId = c).filter
        fun i => i.status = InvoiceStatus.sent ∨ i.status = InvoiceStatus.overdue) =
      invs.filter fun i => i.clientId = c ∧ ¬ i.status = InvoiceStatus.paid := by
    rw [List.filter_filter]
    apply List.filter_congr
    intro i hi
    by_cases hc : i.clientId = c
    · cases hst : i.status with
      | draft => exact absurd hst (hnodraft i hi hc)
      | sent => simp [hc, hst]
      | paid => simp [hc, hst]
      | overdue => simp [hc, hst]
    · simp [hc]
  rw [finalBalance_eq_net_sum]
  unfold statementTransactions
  rw [List.map_append, List.sum_append, invoiceTransactions_net_sum,
    paymentTransactions_net_sum, hA, hP, sum_client_split invs c]
  show _ = (((invs.filter fun i => i.clientId = c).filter
      fun i => i.status = InvoiceStatus.sent ∨ i.status = InvoiceStatus.overdue).map
    fun i => i.total).sum
  rw [hO]
  ring

/-- Witness for C9: a client with one paid invoice (100) and one sent
invoice (50), over a range covering both: the final statement balance
and the summary's outstanding both come to 50. -/
theorem c9_witness :
    finalBalance
        [⟨1, "001", 1, ⟨2024, 1, 10⟩, ⟨2024, 1, 10⟩, 0, 0, 0, 100, .paid⟩,
         ⟨2, "002", 1, ⟨2024, 1, 20⟩, ⟨2024, 1, 20⟩, 0, 0, 0, 50, .sent⟩]
        1 ⟨2024, 1, 1⟩ ⟨2024, 12, 31⟩ =
      (client_statement_summary
        [⟨1, "001", 1, ⟨2024, 1, 10⟩, ⟨2024, 1, 10⟩, 0, 0, 0, 100, .paid⟩,
         ⟨2, "002", 1, ⟨2024, 1, 20⟩, ⟨2024, 1, 20⟩, 0, 0, 0, 50, .sent⟩] 1).totalOutstanding :=
  c9_final_balance _ 1 _ _ (by decide) (by decide)
